import Mathlib

/-!
Verification of the config-profile manager in
`src/internal/app/commands/config.go` (package `commands`).

The embedding models:
  * the data model `reticuleConfigSet` / `reticuleConfig` / `coinbasepro.Auth`
    (Go pointers become `Option`, the Go `map[string]reticuleConfig` becomes an
    association list observed only through `lookupP`, with `none` standing for
    the Go nil map, which is distinct from an empty map);
  * the stored config file as `FileState := Option (List ReticuleConfigSet)`:
    `none` is a nonexistent file and `some docs` a file whose byte contents are
    the concatenation of the (deterministic, injective, non-empty) YAML
    encodings of the documents in `docs`.  A well-formed file is `some [cs]`,
    an existing empty file is `some []`.  The YAML codec itself is an external
    collaborator (gopkg.in/yaml.v3); the list-of-documents view is exactly the
    information the program's reads and writes depend on: equality of document
    lists implies byte-for-byte equality of file contents, and a non-empty
    proper prefix of documents yields different bytes;
  * the three mutators `createReticuleConfigCmd.Run`, `updateReticuleConfigCmd.Run`
    and `deleteReticuleConfigCmd.Run` together with the helpers `readConfigSet`
    and `writeConfigSet`, each as a function from the command's flag values and
    the prior `FileState` to `(Option CmdErr) × FileState` (the error returned
    and the file contents afterwards).  A Go runtime panic (nil-pointer
    dereference of `cfg.Auth`) is modelled as the error `CmdErr.nilAuthPanic`,
    with the file left unwritten, since the panic occurs before any write.
-/

namespace Reticule

/-- Modelled from the spec: `coinbasepro.Auth` (pkg/coinbasepro is not under
src/) — the Credentials value owned by a Profile, holding the three opaque
string tokens `key`, `passphrase`, `secret`. -/
structure Auth where
  Key : String
  Passphrase : String
  Secret : String
deriving DecidableEq

/-- Modelled from the spec: `coinbasepro.NewAuth` (pkg/coinbasepro is not under
src/) builds the owned Credentials value from the three supplied tokens; Create
stores the resulting non-nil pointer in the profile. -/
def NewAuth (key passphrase secret : String) : Option Auth :=
  some { Key := key, Passphrase := passphrase, Secret := secret }

/-- Go struct `reticuleConfig` (config.go lines 39-46): one named profile.  `Auth` is a
pointer `*coinbasepro.Auth` in Go and decodes to nil when absent, hence
`Option Auth`. -/
structure ReticuleConfig where
  BaseURL : String
  FeedURL : String
  Auth : Option Auth
  ServerIP : String
  ServerPort : Int
  ServerSecret : String
deriving DecidableEq

/-- Association-list lookup: the observation of `m[k]`'s `(value, ok)` pair on
a Go map modelled as a list of entries. -/
def lookupP : List (String × ReticuleConfig) → String → Option ReticuleConfig
  | [], _ => none
  | (k, v) :: rest, n => if k = n then some v else lookupP rest n

/-- Association-list erase: `delete(m, k)` on a Go map. -/
def eraseP : List (String × ReticuleConfig) → String → List (String × ReticuleConfig)
  | [], _ => []
  | (k, v) :: rest, n => if k = n then eraseP rest n else (k, v) :: eraseP rest n

/-- Association-list insert/overwrite: `m[k] = v` on a Go map.  Every
observation goes through `lookupP`, for which erase-then-append is exactly the
Go map update. -/
def insertP (l : List (String × ReticuleConfig)) (n : String) (v : ReticuleConfig) :
    List (String × ReticuleConfig) :=
  eraseP l n ++ [(n, v)]

/-- Go struct `reticuleConfigSet` (config.go lines 34-37).  `Configs` is a Go map that
may be nil (`none`), which the Create mutator distinguishes from an empty map. -/
structure ReticuleConfigSet where
  Current : String
  Configs : Option (List (String × ReticuleConfig))
deriving DecidableEq

/-- Lookup through the possibly-nil map: a Go lookup on a nil map yields
`(zero, false)`. -/
def lookupC : Option (List (String × ReticuleConfig)) → String → Option ReticuleConfig
  | none, _ => none
  | some l, n => lookupP l n

/-- Deletion through the possibly-nil map: a Go `delete` on a nil map is a
no-op. -/
def eraseC : Option (List (String × ReticuleConfig)) → String →
    Option (List (String × ReticuleConfig))
  | none, _ => none
  | some l, n => some (eraseP l n)

theorem lookupP_append (l₁ l₂ : List (String × ReticuleConfig)) (n : String) :
    lookupP (l₁ ++ l₂) n =
      match lookupP l₁ n with
      | some v => some v
      | none => lookupP l₂ n := by
  induction l₁ with
  | nil => simp [lookupP]
  | cons hd tl ih =>
    obtain ⟨k, v⟩ := hd
    by_cases hk : k = n <;> simp [lookupP, hk, ih]

theorem lookupP_eraseP_self (l : List (String × ReticuleConfig)) (n : String) :
    lookupP (eraseP l n) n = none := by
  induction l with
  | nil => simp [eraseP, lookupP]
  | cons hd tl ih =>
    obtain ⟨k, v⟩ := hd
    by_cases hk : k = n <;> simp [eraseP, lookupP, hk, ih]

theorem lookupP_eraseP_ne (l : List (String × ReticuleConfig)) (n m : String)
    (h : m ≠ n) : lookupP (eraseP l n) m = lookupP l m := by
  induction l with
  | nil => simp [eraseP]
  | cons hd tl ih =>
    obtain ⟨k, v⟩ := hd
    by_cases hk : k = n
    · subst hk
      simp [eraseP, lookupP, Ne.symm h, ih]
    · by_cases hm : k = m <;> simp [eraseP, lookupP, hk, hm, h, ih]

theorem lookupP_insertP_self (l : List (String × ReticuleConfig)) (n : String)
    (v : ReticuleConfig) : lookupP (insertP l n v) n = some v := by
  simp [insertP, lookupP_append, lookupP_eraseP_self, lookupP]

theorem lookupP_insertP_ne (l : List (String × ReticuleConfig)) (n m : String)
    (v : ReticuleConfig) (h : m ≠ n) :
    lookupP (insertP l n v) m = lookupP l m := by
  have herase := lookupP_eraseP_ne l n m h
  simp [insertP, lookupP_append, herase, lookupP, Ne.symm h]
  cases hl : lookupP l m <;> simp [hl, lookupP, Ne.symm h]

theorem eraseP_of_lookupP_none (l : List (String × ReticuleConfig)) (n : String)
    (h : lookupP l n = none) : eraseP l n = l := by
  induction l with
  | nil => simp [eraseP]
  | cons hd tl ih =>
    obtain ⟨k, v⟩ := hd
    by_cases hk : k = n
    · simp [lookupP, hk] at h
    · simp [lookupP, hk] at h
      simp [eraseP, hk, ih h]

/-- The stored config file at the fixed path `~/.reticule/reticule`: `none` if
no file exists, `some docs` if the file's byte contents are the concatenation
of the YAML encodings of the documents in `docs` (so `some []` is an existing
empty file and `some [cs]` a well-formed file holding exactly one encoded
ConfigSet). -/
abbrev FileState := Option (List ReticuleConfigSet)

/-- The error outcomes surfaced by the mutators, keyed to the messages in
config.go: `notFound` is the "config file ... does not exist" error of
`readConfigSet`; `conflictExists` the Create error "already exists, use
config update reticule"; `conflictNotExists` the Update error "does not
exists, use config create reticule"; `formatError` a yaml.Unmarshal failure;
`ioError` a filesystem open/write failure; `nilAuthPanic` the Go runtime
panic from dereferencing a nil `cfg.Auth` pointer in Update. -/
inductive CmdErr
  | notFound
  | conflictExists
  | conflictNotExists
  | formatError
  | ioError
  | nilAuthPanic
deriving DecidableEq

/-- The zero value of `reticuleConfigSet`: what `var configSet reticuleConfigSet`
declares and what yaml.Unmarshal of an empty byte slice leaves untouched
(empty Current, nil Configs map). -/
def zeroConfigSet : ReticuleConfigSet := { Current := "", Configs := none }

/-- yaml.Unmarshal applied to the file's whole byte contents: an empty file
leaves the zero value, a single well-formed document decodes to itself (the
spec's round-trip law `decode(encode(x)) = x`), and the concatenation of two
or more documents is not the encoding of any ConfigSet and fails to decode. -/
def decodeDocs : List ReticuleConfigSet → Option ReticuleConfigSet
  | [] => some zeroConfigSet
  | [cs] => some cs
  | _ => none

/-- Function `readConfigSet` (config.go lines 210-230): open for read — a missing file
is the `notFound` error — then read all bytes and decode. -/
def readConfigSet (file : FileState) : Except CmdErr ReticuleConfigSet :=
  match file with
  | none => Except.error CmdErr.notFound
  | some docs =>
    match decodeDocs docs with
    | none => Except.error CmdErr.formatError
    | some configSet => Except.ok configSet

/-- Function `writeConfigSet` (config.go lines 232-244): open `O_WRONLY|O_TRUNC` (fails
when the file does not exist) and write the encoding of the full ConfigSet,
replacing all prior contents. -/
def writeConfigSet (file : FileState) (configSet : ReticuleConfigSet) :
    Option CmdErr × FileState :=
  match file with
  | none => (some CmdErr.ioError, none)
  | some _ => (none, some [configSet])

/-- The flag values of `createReticuleConfigCmd` (config.go lines 48-59) as
they reach `Run`: kong has already resolved defaults, so `BaseURL`/`FeedURL`
are the strings of the always-non-nil `*url.URL` values. -/
structure CreateReticuleConfigCmd where
  Name : String
  BaseURL : String
  FeedURL : String
  Key : String
  Passphrase : String
  Secret : String
  Use : Bool
  ServerPort : Int
  BindAddress : String
  ServerAuth : String
deriving DecidableEq

/-- The profile built by Create from its flags (config.go lines 96-106). -/
def newProfile (c : CreateReticuleConfigCmd) : ReticuleConfig :=
  { BaseURL := c.BaseURL
    FeedURL := c.FeedURL
    Auth := NewAuth c.Key c.Passphrase c.Secret
    ServerIP := c.BindAddress
    ServerPort := c.ServerPort
    ServerSecret := c.ServerAuth }

/-- The in-memory mutation of Create (config.go lines 96-114): build the
profile, initialize a nil Configs map and set Current unconditionally for the
first profile, honor `--use`, then insert under `Name`. -/
def createMerge (c : CreateReticuleConfigCmd) (configSet : ReticuleConfigSet) :
    ReticuleConfigSet :=
  let cfg := newProfile c
  let configSet : ReticuleConfigSet :=
    match configSet.Configs with
    | none => { Current := c.Name, Configs := some [] }
    | some _ => configSet
  let configSet := if c.Use then { configSet with Current := c.Name } else configSet
  match configSet.Configs with
  | some l => { configSet with Configs := some (insertP l c.Name cfg) }
  | none => configSet  -- unreachable: Configs was initialized above

/-- Method `createReticuleConfigCmd.Run` (config.go lines 61-121).  The file is opened
`O_RDWR|O_CREATE`: a missing file is created fresh and the zero ConfigSet is
used; an existing file is read in full and decoded, and a profile named `Name`
already present is the conflict error, before anything is written.  On the
existing-file path the yaml encoder then writes to the same handle, whose
offset `ioutil.ReadAll` left at end-of-file: the new document lands after the
prior contents (`docs ++ [·]`), not in place of them. -/
def createRun (c : CreateReticuleConfigCmd) (file : FileState) :
    Option CmdErr × FileState :=
  match file with
  | none => (none, some [createMerge c zeroConfigSet])
  | some docs =>
    match decodeDocs docs with
    | none => (some CmdErr.formatError, some docs)
    | some configSet =>
      if (lookupC configSet.Configs c.Name).isSome then
        (some CmdErr.conflictExists, some docs)
      else
        (none, some (docs ++ [createMerge c configSet]))

/-- The flag values of `updateReticuleConfigCmd` (config.go lines 140-152):
`BaseURL`/`FeedURL` have no kong default here, so the `*url.URL` values are nil
(`none`) when the flag is absent; the string flags default to `""`, `ServerPort`
to `0` and `Use` to `false`. -/
structure UpdateReticuleConfigCmd where
  Name : String
  BaseURL : Option String
  FeedURL : Option String
  Key : String
  Passphrase : String
  Rename : String
  Secret : String
  Use : Bool
  ServerPort : Int
  BindAddress : String
  ServerAuth : String
deriving DecidableEq

/-- Line 173-175 of config.go: when the key flag is non-empty, assign
`cfg.Auth.Key`.  The assignment dereferences the `Auth` pointer, so a nil
`Auth` is a runtime panic. -/
def patchKey (c : UpdateReticuleConfigCmd) (cfg : ReticuleConfig) :
    Except CmdErr ReticuleConfig :=
  if c.Key = "" then Except.ok cfg
  else
    match cfg.Auth with
    | none => Except.error CmdErr.nilAuthPanic
    | some a => Except.ok { cfg with Auth := some { a with Key := c.Key } }

/-- Line 176-178 of config.go: when the passphrase flag is non-empty, assign
`cfg.Auth.Passphrase`, dereferencing the `Auth` pointer. -/
def patchPassphrase (c : UpdateReticuleConfigCmd) (cfg : ReticuleConfig) :
    Except CmdErr ReticuleConfig :=
  if c.Passphrase = "" then Except.ok cfg
  else
    match cfg.Auth with
    | none => Except.error CmdErr.nilAuthPanic
    | some a => Except.ok { cfg with Auth := some { a with Passphrase := c.Passphrase } }

/-- Line 179-181 of config.go: when the secret flag is non-empty, assign
`cfg.Auth.Secret`, dereferencing the `Auth` pointer. -/
def patchSecret (c : UpdateReticuleConfigCmd) (cfg : ReticuleConfig) :
    Except CmdErr ReticuleConfig :=
  if c.Secret = "" then Except.ok cfg
  else
    match cfg.Auth with
    | none => Except.error CmdErr.nilAuthPanic
    | some a => Except.ok { cfg with Auth := some { a with Secret := c.Secret } }

/-- The three credential patches of Update in source order (config.go lines
173-181). -/
def patchCredentials (c : UpdateReticuleConfigCmd) (cfg : ReticuleConfig) :
    Except CmdErr ReticuleConfig :=
  match patchKey c cfg with
  | Except.error e => Except.error e
  | Except.ok cfg =>
    match patchPassphrase c cfg with
    | Except.error e => Except.error e
    | Except.ok cfg => patchSecret c cfg

/-- Line 167-169 of config.go: when the base-url flag was given (non-nil
pointer), overwrite `cfg.BaseURL` with its string form. -/
def patchBaseURL (c : UpdateReticuleConfigCmd) (cfg : ReticuleConfig) :
    ReticuleConfig :=
  match c.BaseURL with | some u => { cfg with BaseURL := u } | none => cfg

/-- Line 170-172 of config.go: when the feed-url flag was given (non-nil
pointer), overwrite `cfg.FeedURL` with its string form. -/
def patchFeedURL (c : UpdateReticuleConfigCmd) (cfg : ReticuleConfig) :
    ReticuleConfig :=
  match c.FeedURL with | some u => { cfg with FeedURL := u } | none => cfg

/-- The three server-field patches of Update (config.go lines 189-197):
BindAddress and ServerAuth when non-empty, ServerPort when non-zero. -/
def patchServer (c : UpdateReticuleConfigCmd) (cfg : ReticuleConfig) :
    ReticuleConfig :=
  let cfg := if c.BindAddress = "" then cfg else { cfg with ServerIP := c.BindAddress }
  let cfg := if c.ServerPort = 0 then cfg else { cfg with ServerPort := c.ServerPort }
  if c.ServerAuth = "" then cfg else { cfg with ServerSecret := c.ServerAuth }

/-- The in-memory mutation of Update once the profile has been found
(config.go lines 167-198), in source order: URL patches, credential patches
(which can panic), rename (delete the old key, switch the working name to
`Rename`), `--use` (sets Current to the possibly-renamed name), server-field
patches, and the final re-insert under the working name. -/
def updateBody (c : UpdateReticuleConfigCmd) (configSet : ReticuleConfigSet)
    (l : List (String × ReticuleConfig)) (cfg : ReticuleConfig) :
    Except CmdErr ReticuleConfigSet :=
  let cfg := patchBaseURL c cfg
  let cfg := patchFeedURL c cfg
  match patchCredentials c cfg with
  | Except.error e => Except.error e
  | Except.ok cfg =>
    let p := if c.Rename = "" then (l, c.Name) else (eraseP l c.Name, c.Rename)
    let configSet := if c.Use then { configSet with Current := p.2 } else configSet
    let cfg := patchServer c cfg
    Except.ok { configSet with Configs := some (insertP p.1 p.2 cfg) }

/-- Method `updateReticuleConfigCmd.Run` (config.go lines 154-200): load the
ConfigSet, fail when the profile is absent (a lookup on a nil map yields
`ok = false`), apply the patches, and persist with `writeConfigSet`.  A panic
(`nilAuthPanic`) aborts the command before any write. -/
def updateRun (c : UpdateReticuleConfigCmd) (file : FileState) :
    Option CmdErr × FileState :=
  match readConfigSet file with
  | Except.error e => (some e, file)
  | Except.ok configSet =>
    match configSet.Configs with
    | none => (some CmdErr.conflictNotExists, file)
    | some l =>
      match lookupP l c.Name with
      | none => (some CmdErr.conflictNotExists, file)
      | some cfg =>
        match updateBody c configSet l cfg with
        | Except.error e => (some e, file)
        | Except.ok configSet => writeConfigSet file configSet

/-- Method `deleteReticuleConfigCmd.Run` (config.go lines 127-138): load the
ConfigSet, `delete(configSet.Configs, d.Name)` (a no-op on a nil map or an
absent key), and persist with `writeConfigSet`. -/
def deleteRun (name : String) (file : FileState) : Option CmdErr × FileState :=
  match readConfigSet file with
  | Except.error e => (some e, file)
  | Except.ok configSet =>
    writeConfigSet file { configSet with Configs := eraseC configSet.Configs name }

/-! Concrete demonstration values used by the witnesses. -/

/-- The credentials of the demonstration profile alice. -/
def authAlice : Auth := { Key := "ka", Passphrase := "pa", Secret := "sa" }

/-- The credentials of the demonstration profile bob. -/
def authBob : Auth := { Key := "kb", Passphrase := "pb", Secret := "sb" }

/-- A concrete profile named alice in the demonstration ConfigSets. -/
def profAlice : ReticuleConfig :=
  { BaseURL := "https://api.a.example"
    FeedURL := "wss://feed.a.example"
    Auth := some authAlice
    ServerIP := "127.0.0.1"
    ServerPort := 80
    ServerSecret := "default" }

/-- A concrete profile named bob in the demonstration ConfigSets. -/
def profBob : ReticuleConfig :=
  { BaseURL := "https://api.b.example"
    FeedURL := "wss://feed.b.example"
    Auth := some authBob
    ServerIP := "127.0.0.1"
    ServerPort := 81
    ServerSecret := "default" }

/-- A stored ConfigSet holding only alice, with alice current. -/
def aliceSet : ReticuleConfigSet :=
  { Current := "alice", Configs := some [("alice", profAlice)] }

/-- A stored ConfigSet holding alice and bob, with alice current. -/
def aliceBobSet : ReticuleConfigSet :=
  { Current := "alice", Configs := some [("alice", profAlice), ("bob", profBob)] }

/-- A stored ConfigSet holding alice and bob, with bob current. -/
def bobCurrentSet : ReticuleConfigSet :=
  { Current := "bob", Configs := some [("alice", profAlice), ("bob", profBob)] }

/-- A concrete Create invocation `config create reticule --name bob` with all
optional flags at their kong defaults. -/
def createBobCmd : CreateReticuleConfigCmd :=
  { Name := "bob"
    BaseURL := "https://api-public.sandbox.pro.coinbase.com"
    FeedURL := "wss://ws-feed-public.sandbox.pro.coinbase.com"
    Key := "kb"
    Passphrase := "pb"
    Secret := "sb"
    Use := false
    ServerPort := 80
    BindAddress := "127.0.0.1"
    ServerAuth := "default" }

/-- An Update invocation with every optional flag absent (the kong zero
values). -/
def updateNoFlagsCmd (name : String) : UpdateReticuleConfigCmd :=
  { Name := name
    BaseURL := none
    FeedURL := none
    Key := ""
    Passphrase := ""
    Rename := ""
    Secret := ""
    Use := false
    ServerPort := 0
    BindAddress := ""
    ServerAuth := "" }

/-! Claim theorems. -/

/-- Claim C1: the claim states that after every mutator the file holds exactly
the encoding of the final ConfigSet, and in particular that Create against an
existing file with a fresh name leaves exactly the encoding of the merged
ConfigSet.  The code violates this: Create's yaml encoder writes to the
`O_RDWR|O_CREATE` handle at the end-of-file offset left by `ioutil.ReadAll`,
so on a file holding the profile alice, `create --name bob` leaves the old
document followed by the new one — not exactly the merged encoding. -/
theorem createRun_appends_on_existing_file :
    createRun createBobCmd (some [aliceSet]) =
      (none, some [aliceSet,
        { Current := "alice"
          Configs := some [("alice", profAlice), ("bob", newProfile createBobCmd)] }]) ∧
    (createRun createBobCmd (some [aliceSet])).2 ≠
      some [{ Current := "alice"
              Configs := some [("alice", profAlice), ("bob", newProfile createBobCmd)] }] := by
  constructor
  · decide
  · decide

/-- Claim C2: Create with a name already present in the stored ConfigSet fails
with the conflict error ("already exists, use config update reticule") and
leaves the stored file byte-for-byte unchanged — no write occurs. -/
theorem create_conflict_leaves_file_unchanged
    (c : CreateReticuleConfigCmd) (cs : ReticuleConfigSet) (cfg : ReticuleConfig)
    (h : lookupC cs.Configs c.Name = some cfg) :
    createRun c (some [cs]) = (some CmdErr.conflictExists, some [cs]) := by
  simp [createRun, decodeDocs, h]

/-- Witness for C2 at a concrete input: creating alice over a file already
holding alice. -/
theorem create_conflict_leaves_file_unchanged_witness :
    createRun { createBobCmd with Name := "alice" } (some [aliceSet]) =
      (some CmdErr.conflictExists, some [aliceSet]) :=
  create_conflict_leaves_file_unchanged { createBobCmd with Name := "alice" }
    aliceSet profAlice (by decide)

/-- Claim C3: Create against an empty or nonexistent file (so the decoded
ConfigSet has a nil Configs map) produces a file holding exactly one ConfigSet
whose Current is the new profile's name, whether or not `--use` was given. -/
theorem create_first_profile_sets_current
    (c : CreateReticuleConfigCmd) (file : FileState)
    (h : file = none ∨ file = some []) :
    ∃ cs, createRun c file = (none, some [cs]) ∧ cs.Current = c.Name := by
  have hmerge : (createMerge c zeroConfigSet).Current = c.Name := by
    cases hU : c.Use <;> simp [createMerge, zeroConfigSet, hU]
  rcases h with h | h <;> subst h
  · exact ⟨createMerge c zeroConfigSet, rfl, hmerge⟩
  · exact ⟨createMerge c zeroConfigSet,
      by simp [createRun, decodeDocs, lookupC, zeroConfigSet], hmerge⟩

/-- Witness for C3 at a concrete input: `create --name bob` (without `--use`)
against a nonexistent file. -/
theorem create_first_profile_sets_current_witness :
    ∃ cs, createRun createBobCmd none = (none, some [cs]) ∧
      cs.Current = createBobCmd.Name :=
  create_first_profile_sets_current createBobCmd none (Or.inl rfl)

/-- Claim C5: Update fails with the not-found error when the config file does
not exist, and with the conflict error ("does not exists, use config create
reticule") when the file exists but holds no profile with the requested name;
in both cases the file is left unchanged — no write occurs. -/
theorem update_missing_file_or_profile_errors
    (c : UpdateReticuleConfigCmd) (cs : ReticuleConfigSet)
    (habsent : lookupC cs.Configs c.Name = none) :
    updateRun c none = (some CmdErr.notFound, none) ∧
    updateRun c (some [cs]) = (some CmdErr.conflictNotExists, some [cs]) := by
  refine ⟨rfl, ?_⟩
  cases hc : cs.Configs with
  | none => simp [updateRun, readConfigSet, decodeDocs, hc]
  | some l =>
    rw [hc] at habsent
    simp only [lookupC] at habsent
    simp [updateRun, readConfigSet, decodeDocs, hc, habsent]

/-- Witness for C5 at a concrete input: updating carol, a profile absent from
the stored alice-only ConfigSet, and updating against a missing file. -/
theorem update_missing_file_or_profile_errors_witness :
    updateRun (updateNoFlagsCmd "carol") none = (some CmdErr.notFound, none) ∧
    updateRun (updateNoFlagsCmd "carol") (some [aliceSet]) =
      (some CmdErr.conflictNotExists, some [aliceSet]) :=
  update_missing_file_or_profile_errors (updateNoFlagsCmd "carol") aliceSet (by decide)

/-- Claim C7: Delete of a name absent from the stored ConfigSet returns no
error and rewrites the file with the persisted ConfigSet equal to the loaded
one. -/
theorem delete_absent_name_noop
    (cs : ReticuleConfigSet) (n : String)
    (h : lookupC cs.Configs n = none) :
    deleteRun n (some [cs]) = (none, some [cs]) := by
  obtain ⟨cur, cfgs⟩ := cs
  cases hc : cfgs with
  | none => simp [deleteRun, readConfigSet, decodeDocs, writeConfigSet, eraseC]
  | some l =>
    subst hc
    simp only [lookupC] at h
    simp [deleteRun, readConfigSet, decodeDocs, writeConfigSet, eraseC,
      eraseP_of_lookupP_none l n h]

/-- Witness for C7 at a concrete input: deleting carol, absent from the stored
alice-only ConfigSet. -/
theorem delete_absent_name_noop_witness :
    deleteRun "carol" (some [aliceSet]) = (none, some [aliceSet]) :=
  delete_absent_name_noop aliceSet "carol" (by decide)

/-- Claim C8: Delete never modifies Current — after deleting `n` the persisted
ConfigSet keeps the prior Current (even when Current = `n`, leaving a dangling
reference), `n` is absent, and every profile other than `n` is unchanged. -/
theorem delete_preserves_current_and_others
    (cs : ReticuleConfigSet) (n : String) :
    ∃ cs', deleteRun n (some [cs]) = (none, some [cs']) ∧
      cs'.Current = cs.Current ∧
      lookupC cs'.Configs n = none ∧
      ∀ m, m ≠ n → lookupC cs'.Configs m = lookupC cs.Configs m := by
  refine ⟨{ cs with Configs := eraseC cs.Configs n }, rfl, rfl, ?_, ?_⟩
  · cases hc : cs.Configs <;> simp [eraseC, lookupC, lookupP_eraseP_self]
  · intro m hm
    cases hc : cs.Configs <;> simp [eraseC, lookupC, lookupP_eraseP_ne _ _ _ hm]

/-- Witness for C8 at a concrete input: deleting alice, the current profile,
from the stored alice-and-bob ConfigSet. -/
theorem delete_preserves_current_and_others_witness :
    ∃ cs', deleteRun "alice" (some [aliceBobSet]) = (none, some [cs']) ∧
      cs'.Current = aliceBobSet.Current ∧
      lookupC cs'.Configs "alice" = none ∧
      ∀ m, m ≠ "alice" → lookupC cs'.Configs m = lookupC aliceBobSet.Configs m :=
  delete_preserves_current_and_others aliceBobSet "alice"

/-- Claim C4: Update of an existing profile supplying only `--key` (every
other optional flag absent) patches exactly that profile's Auth.Key: Current
is unchanged, the patched profile keeps all its other fields (the record
update touches only `Auth.Key`), and every other profile is unchanged. -/
theorem update_only_key_frame
    (c : UpdateReticuleConfigCmd) (cs : ReticuleConfigSet)
    (l : List (String × ReticuleConfig)) (cfg : ReticuleConfig) (a : Auth)
    (hl : cs.Configs = some l)
    (hcfg : lookupP l c.Name = some cfg)
    (hauth : cfg.Auth = some a)
    (hkey : c.Key ≠ "")
    (hb : c.BaseURL = none) (hf : c.FeedURL = none)
    (hp : c.Passphrase = "") (hs : c.Secret = "")
    (hr : c.Rename = "") (hu : c.Use = false)
    (hport : c.ServerPort = 0) (hbind : c.BindAddress = "") (hsa : c.ServerAuth = "") :
    ∃ cs', updateRun c (some [cs]) = (none, some [cs']) ∧
      cs'.Current = cs.Current ∧
      lookupC cs'.Configs c.Name =
        some { cfg with Auth := some { a with Key := c.Key } } ∧
      ∀ m, m ≠ c.Name → lookupC cs'.Configs m = lookupC cs.Configs m := by
  refine ⟨{ cs with
      Configs := some (insertP l c.Name { cfg with Auth := some { a with Key := c.Key } }) },
    ?_, rfl, ?_, ?_⟩
  · simp [updateRun, readConfigSet, decodeDocs, hl, hcfg, updateBody,
      patchBaseURL, patchFeedURL, hb, hf,
      patchCredentials, patchKey, patchPassphrase, patchSecret, hauth, hkey, hp, hs,
      hr, hu, patchServer, hport, hbind, hsa, writeConfigSet]
  · simp [lookupC, lookupP_insertP_self]
  · intro m hm
    simp [lookupC, hl, lookupP_insertP_ne _ _ _ _ hm]

/-- The Update invocation `update --name bob --key knew`: only the key flag
supplied. -/
def updateBobKeyCmd : UpdateReticuleConfigCmd :=
  { updateNoFlagsCmd "bob" with Key := "knew" }

/-- Witness for C4 at a concrete input: `update --name bob --key knew` against
the stored alice-and-bob ConfigSet. -/
theorem update_only_key_frame_witness :
    ∃ cs', updateRun updateBobKeyCmd (some [aliceBobSet]) = (none, some [cs']) ∧
      cs'.Current = aliceBobSet.Current ∧
      lookupC cs'.Configs updateBobKeyCmd.Name =
        some { profBob with Auth := some { authBob with Key := updateBobKeyCmd.Key } } ∧
      ∀ m, m ≠ updateBobKeyCmd.Name →
        lookupC cs'.Configs m = lookupC aliceBobSet.Configs m :=
  update_only_key_frame updateBobKeyCmd
    aliceBobSet [("alice", profAlice), ("bob", profBob)] profBob authBob
    rfl (by decide) rfl (by decide) rfl rfl rfl rfl rfl rfl rfl rfl rfl

/-- The Update invocation `update --name bob --rename carol --use` with every
patch flag absent. -/
def renameBobCarolCmd : UpdateReticuleConfigCmd :=
  { updateNoFlagsCmd "bob" with Rename := "carol", Use := true }

/-- Claim C6: on a stored ConfigSet holding profiles alice and bob with alice
current, `update --name bob --rename carol --use` yields Current = carol, a
profile carol holding exactly bob's old field values, no key bob, and alice
unchanged. -/
theorem update_rename_use_scenario
    (cs : ReticuleConfigSet) (l : List (String × ReticuleConfig))
    (a b : ReticuleConfig)
    (hl : cs.Configs = some l)
    (_hcur : cs.Current = "alice")
    (ha : lookupP l "alice" = some a)
    (hb : lookupP l "bob" = some b) :
    ∃ cs', updateRun renameBobCarolCmd (some [cs]) = (none, some [cs']) ∧
      cs'.Current = "carol" ∧
      lookupC cs'.Configs "carol" = some b ∧
      lookupC cs'.Configs "bob" = none ∧
      lookupC cs'.Configs "alice" = some a := by
  refine ⟨{ cs with
      Current := "carol", Configs := some (insertP (eraseP l "bob") "carol" b) },
    ?_, rfl, ?_, ?_, ?_⟩
  · simp [updateRun, readConfigSet, decodeDocs, hl, renameBobCarolCmd,
      updateNoFlagsCmd, hb, updateBody, patchBaseURL, patchFeedURL,
      patchCredentials, patchKey, patchPassphrase, patchSecret, patchServer,
      writeConfigSet]
  · simp [lookupC, lookupP_insertP_self]
  · rw [lookupC, lookupP_insertP_ne _ _ _ _ (by decide), lookupP_eraseP_self]
  · rw [lookupC, lookupP_insertP_ne _ _ _ _ (by decide),
      lookupP_eraseP_ne _ _ _ (by decide), ha]

/-- Witness for C6 at a concrete input: the stored alice-and-bob ConfigSet. -/
theorem update_rename_use_scenario_witness :
    ∃ cs', updateRun renameBobCarolCmd (some [aliceBobSet]) = (none, some [cs']) ∧
      cs'.Current = "carol" ∧
      lookupC cs'.Configs "carol" = some profBob ∧
      lookupC cs'.Configs "bob" = none ∧
      lookupC cs'.Configs "alice" = some profAlice :=
  update_rename_use_scenario aliceBobSet [("alice", profAlice), ("bob", profBob)]
    profAlice profBob rfl rfl (by decide) (by decide)

theorem patchBaseURL_Auth (c : UpdateReticuleConfigCmd) (cfg : ReticuleConfig) :
    (patchBaseURL c cfg).Auth = cfg.Auth := by
  cases hb : c.BaseURL <;> simp [patchBaseURL, hb]

theorem patchFeedURL_Auth (c : UpdateReticuleConfigCmd) (cfg : ReticuleConfig) :
    (patchFeedURL c cfg).Auth = cfg.Auth := by
  cases hf : c.FeedURL <;> simp [patchFeedURL, hf]

theorem patchCredentials_of_auth_none
    (c : UpdateReticuleConfigCmd) (cfg : ReticuleConfig)
    (hauth : cfg.Auth = none)
    (hflag : c.Key ≠ "" ∨ c.Passphrase ≠ "" ∨ c.Secret ≠ "") :
    patchCredentials c cfg = Except.error CmdErr.nilAuthPanic := by
  by_cases hk : c.Key = "" <;> by_cases hp : c.Passphrase = "" <;>
    by_cases hsc : c.Secret = "" <;>
    simp_all [patchCredentials, patchKey, patchPassphrase, patchSecret, hauth]

theorem patchCredentials_of_auth_some
    (c : UpdateReticuleConfigCmd) (cfg : ReticuleConfig) (a : Auth)
    (hauth : cfg.Auth = some a) :
    ∃ cfg', patchCredentials c cfg = Except.ok cfg' := by
  by_cases hk : c.Key = "" <;> by_cases hp : c.Passphrase = "" <;>
    by_cases hsc : c.Secret = "" <;>
    simp [patchCredentials, patchKey, patchPassphrase, patchSecret, hk, hp, hsc, hauth]

/-- Claim C9: for an Update that supplies a credential flag (key, passphrase
or secret) for an existing profile, the credential patch panics on a nil
Credentials value exactly when the target profile's decoded Auth is nil; under
a non-nil Auth the panic is unreachable and the command's outcome is not the
panic error. -/
theorem update_credential_patch_safe_iff
    (c : UpdateReticuleConfigCmd) (cs : ReticuleConfigSet)
    (l : List (String × ReticuleConfig)) (cfg : ReticuleConfig)
    (hl : cs.Configs = some l)
    (hcfg : lookupP l c.Name = some cfg)
    (hflag : c.Key ≠ "" ∨ c.Passphrase ≠ "" ∨ c.Secret ≠ "") :
    ((updateRun c (some [cs])).1 = some CmdErr.nilAuthPanic ↔ cfg.Auth = none) := by
  have hA : (patchFeedURL c (patchBaseURL c cfg)).Auth = cfg.Auth := by
    rw [patchFeedURL_Auth, patchBaseURL_Auth]
  cases hauth : cfg.Auth with
  | none =>
    have hpc := patchCredentials_of_auth_none c (patchFeedURL c (patchBaseURL c cfg))
      (by rw [hA, hauth]) hflag
    simp [updateRun, readConfigSet, decodeDocs, hl, hcfg, updateBody, hpc]
  | some a =>
    obtain ⟨cfg', hpc⟩ := patchCredentials_of_auth_some c
      (patchFeedURL c (patchBaseURL c cfg)) a (by rw [hA, hauth])
    simp [updateRun, readConfigSet, decodeDocs, hl, hcfg, updateBody, hpc,
      writeConfigSet]

/-- A profile whose stored Auth entry was absent: it decodes to a nil Auth
pointer. -/
def profNoAuth : ReticuleConfig := { profBob with Auth := none }

/-- A stored ConfigSet holding only the credential-less profile bob. -/
def noAuthSet : ReticuleConfigSet :=
  { Current := "bob", Configs := some [("bob", profNoAuth)] }

/-- Witness for C9 at a concrete input: `update --name bob --key knew` against
a stored bob whose Auth entry is absent. -/
theorem update_credential_patch_safe_iff_witness :
    (updateRun updateBobKeyCmd (some [noAuthSet])).1 = some CmdErr.nilAuthPanic ↔
      profNoAuth.Auth = none :=
  update_credential_patch_safe_iff updateBobKeyCmd noAuthSet
    [("bob", profNoAuth)] profNoAuth rfl (by decide) (Or.inl (by decide))

/-- Inversion for a successful `updateBody`: the result's Current is the
possibly-renamed working name when `--use` was given and the loaded Current
otherwise, and the result's map is the (possibly key-erased) map with the
working name re-inserted. -/
theorem updateBody_ok_inv
    (c : UpdateReticuleConfigCmd) (configSet cs' : ReticuleConfigSet)
    (l : List (String × ReticuleConfig)) (cfg : ReticuleConfig)
    (h : updateBody c configSet l cfg = Except.ok cs') :
    ∃ cfg',
      cs'.Current = (if c.Use then (if c.Rename = "" then c.Name else c.Rename)
        else configSet.Current) ∧
      cs'.Configs = some (insertP (if c.Rename = "" then l else eraseP l c.Name)
        (if c.Rename = "" then c.Name else c.Rename) cfg') := by
  obtain ⟨cur', cfgs'⟩ := cs'
  simp only [updateBody] at h
  cases hpc : patchCredentials c (patchFeedURL c (patchBaseURL c cfg)) with
  | error e => rw [hpc] at h; simp at h
  | ok cfg2 =>
    rw [hpc] at h
    by_cases hr : c.Rename = "" <;> cases hu : c.Use <;>
      simp only [hr, hu, if_true, if_false, Bool.false_eq_true, ite_true, ite_false,
        Except.ok.injEq, ReticuleConfigSet.mk.injEq] at h <;>
      obtain ⟨h1, h2⟩ := h <;> subst h1 <;> subst h2 <;>
      exact ⟨patchServer c cfg2, by simp [hr, hu], by simp [hr, hu]⟩

/-- Claim C10: an Update without `--use` never changes Current, including when
a rename is supplied: the rename removes the old key and re-inserts under the
new name without touching Current, so when Current equaled the renamed
profile's old name the persisted ConfigSet's Current points at an absent key. -/
theorem update_no_use_preserves_current
    (c : UpdateReticuleConfigCmd) (cs : ReticuleConfigSet)
    (hu : c.Use = false) :
    (∀ cs', (updateRun c (some [cs])).2 = some [cs'] → cs'.Current = cs.Current) ∧
    (∀ cs', cs.Current = c.Name → c.Rename ≠ "" → c.Rename ≠ c.Name →
      (updateRun c (some [cs])).1 = none →
      (updateRun c (some [cs])).2 = some [cs'] →
      lookupC cs'.Configs cs.Current = none) := by
  cases hC : cs.Configs with
  | none =>
    have heq : updateRun c (some [cs]) = (some CmdErr.conflictNotExists, some [cs]) := by
      simp [updateRun, readConfigSet, decodeDocs, hC]
    rw [heq]
    constructor
    · intro cs' h
      simp only [Option.some.injEq, List.cons.injEq, and_true] at h
      rw [← h]
    · intro cs' _ _ _ h
      simp at h
  | some l =>
    cases hcfg : lookupP l c.Name with
    | none =>
      have heq : updateRun c (some [cs]) = (some CmdErr.conflictNotExists, some [cs]) := by
        simp [updateRun, readConfigSet, decodeDocs, hC, hcfg]
      rw [heq]
      constructor
      · intro cs' h
        simp only [Option.some.injEq, List.cons.injEq, and_true] at h
        rw [← h]
      · intro cs' _ _ _ h
        simp at h
    | some cfg =>
      cases hub : updateBody c cs l cfg with
      | error e =>
        have heq : updateRun c (some [cs]) = (some e, some [cs]) := by
          simp [updateRun, readConfigSet, decodeDocs, hC, hcfg, hub]
        rw [heq]
        constructor
        · intro cs' h
          simp only [Option.some.injEq, List.cons.injEq, and_true] at h
          rw [← h]
        · intro cs' _ _ _ h
          simp at h
      | ok cs2 =>
        have heq : updateRun c (some [cs]) = (none, some [cs2]) := by
          simp [updateRun, readConfigSet, decodeDocs, hC, hcfg, hub, writeConfigSet]
        rw [heq]
        obtain ⟨cfg', hcur, hcfgs⟩ := updateBody_ok_inv c cs cs2 l cfg hub
        constructor
        · intro cs' h
          simp only [Option.some.injEq, List.cons.injEq, and_true] at h
          rw [← h, hcur, hu]
          simp
        · intro cs' hcureq hr hrn _ h
          simp only [Option.some.injEq, List.cons.injEq, and_true] at h
          rw [← h, hcfgs]
          simp only [if_neg hr]
          rw [lookupC, hcureq, lookupP_insertP_ne _ _ _ _ (fun hh => hrn hh.symm),
            lookupP_eraseP_self]

/-- Witness for C10 at a concrete input: `update --name bob --rename carol`
(without `--use`) against a ConfigSet whose Current is bob: Current stays bob
and afterwards points at an absent key. -/
theorem update_no_use_preserves_current_witness :
    (∀ cs', (updateRun { updateNoFlagsCmd "bob" with Rename := "carol" }
        (some [bobCurrentSet])).2 = some [cs'] →
      cs'.Current = bobCurrentSet.Current) ∧
    (∀ cs', bobCurrentSet.Current =
        ({ updateNoFlagsCmd "bob" with Rename := "carol" } : UpdateReticuleConfigCmd).Name →
      ({ updateNoFlagsCmd "bob" with Rename := "carol" } : UpdateReticuleConfigCmd).Rename ≠ "" →
      ({ updateNoFlagsCmd "bob" with Rename := "carol" } : UpdateReticuleConfigCmd).Rename ≠
        ({ updateNoFlagsCmd "bob" with Rename := "carol" } : UpdateReticuleConfigCmd).Name →
      (updateRun { updateNoFlagsCmd "bob" with Rename := "carol" }
        (some [bobCurrentSet])).1 = none →
      (updateRun { updateNoFlagsCmd "bob" with Rename := "carol" }
        (some [bobCurrentSet])).2 = some [cs'] →
      lookupC cs'.Configs bobCurrentSet.Current = none) :=
  update_no_use_preserves_current
    { updateNoFlagsCmd "bob" with Rename := "carol" } bobCurrentSet rfl

end Reticule
